import Mathlib

/-!
Verification of the checkout-sdk payment-button code.

Part 1 embeds `GooglePayStripeInitializer`
(src/packages/core/src/payment/strategies/googlepay/googlepay-stripe-initializer.ts):
its `initialize` builds a `GooglePayPaymentDataRequestV2` from an optional
checkout, a payment method and a `hasShippingAddress` flag, and its
`parseResponse` maps a Google Pay payment payload to a tokenize payload.

Part 2 models `BraintreePaypalButtonStrategy`, whose implementation is absent
from src/ (only its test file is present); those definitions are modelled
from the spec, with the test file fixing concrete field names and values.

Modelling conventions: JavaScript `undefined`-able values become `Option`;
currency amounts are exact decimals modelled as `ℚ` (the source feeds decimal
amounts through the string-shifting `round` of lodash, which on such inputs
equals `Math.round` of the amount scaled by 100, that is floor of x + 1/2);
`toFixed(2)` on the rounded value is rendered from the integer number of
cents.
-/

namespace CheckoutSdk

/-- A shipping consignment; only the field the initializer reads is kept.
`selectedPickupOption` is an object in the source, so its JS truthiness is
exactly presence (`Option.isSome`). -/
structure Consignment where
  selectedPickupOption : Option Nat
  deriving DecidableEq, Repr

structure Currency where
  code : String
  deriving DecidableEq, Repr

structure Cart where
  currency : Currency
  deriving DecidableEq, Repr

/-- The checkout snapshot read by `_getGooglePayPaymentDataRequest`. -/
structure Checkout where
  cart : Cart
  outstandingBalance : ℚ
  consignments : List Consignment
  deriving DecidableEq, Repr

/-- The `bopis` block of the payment method's initialization data. -/
structure Bopis where
  enabled : Bool
  requiredAddress : String
  deriving DecidableEq, Repr

structure GooglePayInitializationData where
  googleMerchantName : String
  googleMerchantId : String
  platformToken : String
  stripeVersion : String
  stripePublishableKey : String
  stripeConnectedAccount : String
  bopis : Option Bopis
  deriving DecidableEq, Repr

structure PaymentMethod where
  initializationData : GooglePayInitializationData
  supportedCards : List String
  deriving DecidableEq, Repr

structure MerchantInfo where
  authJwt : String
  merchantId : String
  merchantName : String
  deriving DecidableEq, Repr

structure BillingAddressParameters where
  format : String
  phoneNumberRequired : Bool
  deriving DecidableEq, Repr

structure CardParameters where
  allowedAuthMethods : List String
  allowedCardNetworks : List String
  billingAddressRequired : Bool
  billingAddressParameters : BillingAddressParameters
  deriving DecidableEq, Repr

structure TokenizationSpec where
  type : String
  gateway : String
  stripeVersion : String
  stripePublishableKey : String
  deriving DecidableEq, Repr

structure AllowedPaymentMethod where
  type : String
  parameters : CardParameters
  tokenizationSpecification : TokenizationSpec
  deriving DecidableEq, Repr

structure TransactionInfo where
  currencyCode : String
  totalPriceStatus : String
  totalPrice : String
  deriving DecidableEq, Repr

structure ShippingAddressParameters where
  phoneNumberRequired : Bool
  deriving DecidableEq, Repr

structure GooglePayPaymentDataRequestV2 where
  apiVersion : Nat
  apiVersionMinor : Nat
  merchantInfo : MerchantInfo
  allowedPaymentMethods : List AllowedPaymentMethod
  transactionInfo : TransactionInfo
  emailRequired : Bool
  shippingAddressRequired : Bool
  shippingAddressParameters : ShippingAddressParameters
  deriving DecidableEq, Repr

/-- lodash `round(x, 2)` as the integer number of cents: the library shifts the
decimal representation by two digits and applies `Math.round`, which is
floor of y + 1/2 (ties toward positive infinity). -/
def lodashRoundCents (q : ℚ) : Int :=
  Int.floor (q * 100 + 1 / 2)

def pad2 (n : Nat) : String :=
  if n < 10 then "0" ++ toString n else toString n

/-- Rendering of `Number.prototype.toFixed(2)` applied to a value that is an
exact multiple of 0.01, given as its integer number of cents. -/
def renderCents (k : Int) : String :=
  (if k < 0 then "-" else "") ++ toString (k.natAbs / 100) ++ "." ++ pad2 (k.natAbs % 100)

/-- The `totalPrice` computation of `_getGooglePayPaymentDataRequest`:
`checkout?.outstandingBalance ? round(checkout.outstandingBalance, 2).toFixed(2) : ''`.
A number is JS-falsy exactly when it is 0 (NaN cannot arise from a rational). -/
def gpTotalPrice (checkout : Option Checkout) : String :=
  match checkout with
  | none => ""
  | some c =>
    if c.outstandingBalance = 0 then ""
    else renderCents (lodashRoundCents c.outstandingBalance)

def consignmentsOf (checkout : Option Checkout) : List Consignment :=
  match checkout with
  | none => []
  | some c => c.consignments

/-- The private method `_getGooglePayPaymentDataRequest` of
`GooglePayStripeInitializer`, transcribed from the source.
`BillingAddressFormat.Full` is the string `"FULL"`. -/
def getGooglePayPaymentDataRequest (checkout : Option Checkout)
    (paymentMethod : PaymentMethod) (hasShippingAddress : Bool) :
    GooglePayPaymentDataRequestV2 :=
  let currencyCode : String :=
    match checkout with
    | none => ""
    | some c => c.cart.currency.code
  let totalPrice := gpTotalPrice checkout
  let consignments := consignmentsOf checkout
  let d := paymentMethod.initializationData
  let isPickup := consignments.all fun consignment => consignment.selectedPickupOption.isSome
  { apiVersion := 2
    apiVersionMinor := 0
    merchantInfo :=
      { authJwt := d.platformToken
        merchantId := d.googleMerchantId
        merchantName := d.googleMerchantName }
    allowedPaymentMethods :=
      [{ type := "CARD"
         parameters :=
           { allowedAuthMethods := ["PAN_ONLY", "CRYPTOGRAM_3DS"]
             allowedCardNetworks :=
               paymentMethod.supportedCards.map fun card =>
                 if card = "MC" then "MASTERCARD" else card
             billingAddressRequired := true
             billingAddressParameters := { format := "FULL", phoneNumberRequired := true } }
         tokenizationSpecification :=
           { type := "PAYMENT_GATEWAY"
             gateway := "stripe"
             stripeVersion := d.stripeVersion
             stripePublishableKey := d.stripePublishableKey ++ "/" ++ d.stripeConnectedAccount } }]
    transactionInfo :=
      { currencyCode := currencyCode
        totalPriceStatus := "FINAL"
        totalPrice := totalPrice }
    emailRequired := true
    shippingAddressRequired :=
      match d.bopis with
      | some b =>
        if b.enabled && isPickup && b.requiredAddress == "none" then false
        else !hasShippingAddress
      | none => !hasShippingAddress
    shippingAddressParameters := { phoneNumberRequired := true } }

/-- The method `initialize` of `GooglePayStripeInitializer` resolves
immediately with the payment-data request; the promise wrapper is dropped in
the embedding. -/
def gpInit (checkout : Option Checkout) (paymentMethod : PaymentMethod)
    (hasShippingAddress : Bool) : GooglePayPaymentDataRequestV2 :=
  getGooglePayPaymentDataRequest checkout paymentMethod hasShippingAddress

/-!
Embedding of `parseResponse`. The token string is fed to `JSON.parse`; the
embedding takes the parse outcome directly: `none` stands for malformed JSON
(the parse throws), `some v` for the parsed JSON value. Property access
follows JavaScript semantics: reading a property of `undefined` or `null`
throws a `TypeError`; reading an absent property of any other value yields
`undefined`. An `Option JVal` tracks a possibly-`undefined` value.
-/

/-- A JSON value as produced by `JSON.parse`. -/
inductive JVal where
  | jnull : JVal
  | jbool : Bool → JVal
  | jnum : ℚ → JVal
  | jstr : String → JVal
  | jarr : List JVal → JVal
  | jobj : List (String × JVal) → JVal

/-- Property lookup on the field list of an object; `JSON.parse` keeps the
last occurrence of a duplicated key, hence the left fold. -/
def jobjGet (fields : List (String × JVal)) (k : String) : Option JVal :=
  fields.foldl (fun acc kv => if kv.1 = k then some kv.2 else acc) none

/-- Property read on a defined JS value: objects look the key up, every other
non-null value yields `undefined` for the keys this code reads. -/
def jsPropPure (v : JVal) (k : String) : Option JVal :=
  match v with
  | .jobj fields => jobjGet fields k
  | _ => none

/-- JS property access on a base that may be `undefined`: throws a
`TypeError` (modelled as `Except.error`) when the base is `undefined` or
`null`, otherwise yields the (possibly `undefined`) property value. -/
def jsProp (base : Option JVal) (k : String) : Except Unit (Option JVal) :=
  match base with
  | none => .error ()
  | some .jnull => .error ()
  | some v => .ok (jsPropPure v k)

inductive GPError where
  | invalidArgument : GPError
  deriving DecidableEq, Repr

structure TokenizeDetails where
  cardType : Option JVal
  lastFour : Option JVal

structure TokenizePayload where
  nonce : Option JVal
  type : Option JVal
  details : TokenizeDetails

/-- The method `parseResponse` of `GooglePayStripeInitializer`: parse the
token, read `payload.id`, `payload.type`, `payload.card.brand`,
`payload.card.last4`; any thrown error is caught and replaced by
`InvalidArgumentError`. -/
def parseResponse (token : Option JVal) : Except GPError TokenizePayload :=
  let attempt : Except Unit TokenizePayload :=
    match token with
    | none => .error ()
    | some payload => do
      let nonce ← jsProp (some payload) "id"
      let ty ← jsProp (some payload) "type"
      let card ← jsProp (some payload) "card"
      let brand ← jsProp card "brand"
      let last4 ← jsProp card "last4"
      pure { nonce := nonce, type := ty, details := { cardType := brand, lastFour := last4 } }
  match attempt with
  | .ok p => .ok p
  | .error _ => .error .invalidArgument

/-- The exact failure condition of `parseResponse`: malformed JSON, a `null`
payload, or a `card` property that is absent or `null` (so that reading
`.brand` from it throws). -/
def parseFails (token : Option JVal) : Bool :=
  match token with
  | none => true
  | some .jnull => true
  | some v =>
    match jsPropPure v "card" with
    | none => true
    | some .jnull => true
    | some _ => false

/-!
Part 2: `BraintreePaypalButtonStrategy`. Only the test file of the strategy
is present under src/; the strategy implementation itself is absent, so the
definitions below are modelled from the spec (sections 4.1 to 4.5, 6 and 7)
with the test file fixing concrete field names and values.
-/

inductive MissingDataErrorType where
  | missingCart : MissingDataErrorType
  | missingPaymentMethod : MissingDataErrorType
  | missingClientToken : MissingDataErrorType
  deriving DecidableEq, Repr

inductive StrategyError where
  | invalidArgument : StrategyError
  | missingData : MissingDataErrorType → StrategyError
  | providerError : String → StrategyError
  deriving DecidableEq, Repr

/-- An address as serialized by the finalization poster. -/
structure Address where
  email : String
  firstName : String
  lastName : String
  address1 : String
  address2 : String
  city : String
  stateOrProvince : String
  countryCode : String
  postalCode : String
  deriving DecidableEq, Repr

structure BuyNowCartRequestBody where
  lineItems : List (Nat × Nat)
  deriving DecidableEq, Repr

/-- Modelled from the spec: the caller-supplied `getBuyNowCartRequestBody()`
builder of the buy-now descriptor is a pure producer, recorded by its result
(`none` when the builder returns no value). -/
structure BuyNowInitializeOptions where
  getBuyNowCartRequestBody : Option BuyNowCartRequestBody
  deriving DecidableEq, Repr

structure BraintreePaypalButtonInitializeOptions where
  messagingContainerId : Option String
  currencyCode : Option String
  buyNowInitializeOptions : Option BuyNowInitializeOptions
  shouldProcessPayment : Bool
  deriving DecidableEq, Repr

structure CheckoutButtonInitializeOptions where
  methodId : Option String
  containerId : Option String
  braintreepaypal : Option BraintreePaypalButtonInitializeOptions
  deriving DecidableEq, Repr

/-- Observable strategy state: whether the SDK session is live, whether the
buy-now flow is configured, and counters for the collaborator calls the
claims count (`teardowns` of the SDK creator, `loads` of the default
checkout). -/
structure StrategyState where
  initialized : Bool
  buyNowFlow : Bool
  teardowns : Nat
  loads : Nat
  deriving DecidableEq, Repr

def StrategyState.fresh : StrategyState :=
  { initialized := false, buyNowFlow := false, teardowns := 0, loads := 0 }

/-- Modelled from the spec: `initialize()` of `BraintreePaypalButtonStrategy`
(implementation absent from src; spec section 4.3 Initializing and section
6). Rejects with `InvalidArgumentError` when `methodId`, `containerId` or the
`braintreepaypal` options object is missing; rejects with
`MissingDataError(MissingClientToken)` when the payment method has no client
token; loads the default checkout once for the existing-cart flow and not at
all for the buy-now flow (test `does not load default checkout for
BuyNowFlow`). -/
def strategyInit (opts : CheckoutButtonInitializeOptions)
    (clientToken : Option String) (s : StrategyState) :
    Except StrategyError StrategyState :=
  match opts.methodId, opts.containerId, opts.braintreepaypal with
  | some _, some _, some bp =>
    match clientToken with
    | none => .error (.missingData .missingClientToken)
    | some _ =>
      let buyNow := bp.buyNowInitializeOptions.isSome
      .ok { s with
        initialized := true
        buyNowFlow := buyNow
        loads := if buyNow then s.loads else s.loads + 1 }
  | _, _, _ => .error .invalidArgument

/-- Effects of one invocation of the order-creation handler. -/
structure CreateOrderResult where
  loads : Nat
  paymentErrors : List StrategyError
  providerCalls : Nat
  result : Except StrategyError String

/-- Modelled from the spec: the order-creation handler (section 4.3). In the
buy-now flow: if the configured builder yielded no request body, it fails
fast with `MissingDataError(MissingCart)` via `onPaymentError` before ever
calling the provider; otherwise it creates the buy-now cart (`cartCreate` is
the outcome of that call) and triggers no checkout reload. In the
existing-cart flow it triggers exactly one checkout-state reload. It then
returns the outcome of the order-creation call of the provider
(`providerResult`); any rejection is reported via `onPaymentError` and
re-thrown. -/
def createOrderHandler (bp : BraintreePaypalButtonInitializeOptions)
    (cartCreate : Except StrategyError String)
    (providerResult : Except StrategyError String) : CreateOrderResult :=
  match bp.buyNowInitializeOptions with
  | some bn =>
    match bn.getBuyNowCartRequestBody with
    | none =>
      { loads := 0
        paymentErrors := [.missingData .missingCart]
        providerCalls := 0
        result := .error (.missingData .missingCart) }
    | some _ =>
      match cartCreate with
      | .error e =>
        { loads := 0, paymentErrors := [e], providerCalls := 0, result := .error e }
      | .ok _ =>
        match providerResult with
        | .error e =>
          { loads := 0, paymentErrors := [e], providerCalls := 1, result := .error e }
        | .ok tok =>
          { loads := 0, paymentErrors := [], providerCalls := 1, result := .ok tok }
  | none =>
    match providerResult with
    | .error e =>
      { loads := 1, paymentErrors := [e], providerCalls := 1, result := .error e }
    | .ok tok =>
      { loads := 1, paymentErrors := [], providerCalls := 1, result := .ok tok }

/-- Run the order-creation handler `n` times, accumulating the reload count
into the strategy state. -/
def runCreateOrders (bp : BraintreePaypalButtonInitializeOptions) (n : Nat)
    (s : StrategyState) : StrategyState :=
  match n with
  | 0 => s
  | n + 1 =>
    runCreateOrders bp n
      { s with loads := s.loads + (createOrderHandler bp (.ok "cart") (.ok "order")).loads }

/-- The normalized tokenization result consumed by the finalization poster. -/
structure ApprovalResult where
  nonce : String
  deviceData : String
  deriving DecidableEq, Repr

/-- Effects of one invocation of the approval handler: errors reported via
`onAuthorizeError`, and the forms posted by the finalization poster. -/
structure ApproveEffects where
  authorizeErrors : List StrategyError
  posts : List (List (String × String))
  deriving DecidableEq, Repr

/-- Modelled from the spec: section 4.5 — each address is independently
JSON-serialized into a flat field set (field names fixed by the test file).
Address content is assumed free of characters needing JSON string escapes. -/
def serializeAddress (a : Address) : String :=
  "\x7b\"email\":\"" ++ a.email ++
  "\",\"first_name\":\"" ++ a.firstName ++
  "\",\"last_name\":\"" ++ a.lastName ++
  "\",\"address_line_1\":\"" ++ a.address1 ++
  "\",\"address_line_2\":\"" ++ a.address2 ++
  "\",\"city\":\"" ++ a.city ++
  "\",\"state\":\"" ++ a.stateOrProvince ++
  "\",\"country_code\":\"" ++ a.countryCode ++
  "\",\"postal_code\":\"" ++ a.postalCode ++ "\"\x7d"

/-- Modelled from the spec: section 4.5, the finalization poster — the single
form POST to the checkout-finalization endpoint. `action` is
`"process_payment"` when the configuration requests immediate processing,
else `"set_external_checkout"`; the shipping-address field is omitted when no
shipping address is known. -/
def buildFinalizationPayload (methodId : String) (shouldProcessPayment : Bool)
    (cartId : String) (approval : ApprovalResult) (billing : Address)
    (shipping : Option Address) : List (String × String) :=
  [("payment_type", "paypal"),
   ("provider", methodId),
   ("action", if shouldProcessPayment then "process_payment" else "set_external_checkout"),
   ("device_data", approval.deviceData),
   ("nonce", approval.nonce),
   ("cart_id", cartId),
   ("billing_address", serializeAddress billing)] ++
  (match shipping with
   | some sa => [("shipping_address", serializeAddress sa)]
   | none => [])

/-- Modelled from the spec: the approval handler (section 4.3) — delegates to
the tokenization bridge (`tokenizeResult` is the outcome of that call); on
failure it reports via `onAuthorizeError` and does not call the finalization
poster; on success it posts exactly one finalization form. -/
def onApproveHandler (tokenizeResult : Except StrategyError ApprovalResult)
    (methodId : String) (shouldProcessPayment : Bool) (cartId : String)
    (billing : Address) (shipping : Option Address) : ApproveEffects :=
  match tokenizeResult with
  | .error e => { authorizeErrors := [e], posts := [] }
  | .ok approval =>
    { authorizeErrors := []
      posts := [buildFinalizationPayload methodId shouldProcessPayment cartId
                  approval billing shipping] }

/-- Modelled from the spec: section 4.3 Deinitializing — unmounts the widget
and tears the SDK session down when one is live, transitioning to
`Deinitialized`; a call before Ready or after a previous one is a no-op
returning successfully. -/
def strategyDeinit (s : StrategyState) : StrategyState :=
  if s.initialized then { s with initialized := false, teardowns := s.teardowns + 1 }
  else s

/-!
Spec-side definitions and concrete instances used by the theorems.
-/

/-- Rounding to cents half-away-from-zero, as the numeric policy of the spec
words it. -/
def roundHalfAwayCents (q : ℚ) : Int :=
  if q < 0 then -Int.floor (100 * (-q) + 1 / 2) else Int.floor (100 * q + 1 / 2)

/-- Spec-side reading of the bopis gate: bopis is configured with
`enabled = true` and `requiredAddress = "none"`. -/
def bopisNoShippingConfigured (pm : PaymentMethod) : Prop :=
  ∃ b, pm.initializationData.bopis = some b ∧ b.enabled = true ∧ b.requiredAddress = "none"

/-- Spec-side reading of the pickup gate: every consignment of the checkout
(none at all when the checkout is absent) has a selected pickup option. -/
def allConsignmentsPickup (checkout : Option Checkout) : Prop :=
  ∀ con ∈ consignmentsOf checkout, con.selectedPickupOption.isSome = true

def pmExample : PaymentMethod :=
  { initializationData :=
      { googleMerchantName := "merchant", googleMerchantId := "id", platformToken := "jwt"
        stripeVersion := "v3", stripePublishableKey := "pk", stripeConnectedAccount := "acct"
        bopis := none }
    supportedCards := ["VISA", "MC"] }

def c1Example : Checkout :=
  { cart := { currency := { code := "USD" } }, outstandingBalance := 21995 / 1000
    consignments := [] }

def c1Zero : Checkout :=
  { cart := { currency := { code := "USD" } }, outstandingBalance := 0, consignments := [] }

def pmBopis : PaymentMethod :=
  { initializationData :=
      { googleMerchantName := "merchant", googleMerchantId := "id", platformToken := "jwt"
        stripeVersion := "v3", stripePublishableKey := "pk", stripeConnectedAccount := "acct"
        bopis := some { enabled := true, requiredAddress := "none" } }
    supportedCards := ["VISA"] }

def pickupCheckout : Checkout :=
  { cart := { currency := { code := "USD" } }, outstandingBalance := 190
    consignments := [{ selectedPickupOption := some 1 }] }

def c3Opts : CheckoutButtonInitializeOptions :=
  { methodId := none, containerId := some "braintree-paypal-button-mock-id"
    braintreepaypal := none }

def c2Bp : BraintreePaypalButtonInitializeOptions :=
  { messagingContainerId := none, currencyCode := some "USD"
    buyNowInitializeOptions := some { getBuyNowCartRequestBody := none }
    shouldProcessPayment := false }

def c5Bp : BraintreePaypalButtonInitializeOptions :=
  { messagingContainerId := some "braintree-paypal-message-mock-id", currencyCode := none
    buyNowInitializeOptions := none, shouldProcessPayment := false }

def c8Opts : CheckoutButtonInitializeOptions :=
  { methodId := some "braintreepaypal"
    containerId := some "braintree-paypal-button-mock-id"
    braintreepaypal :=
      some { messagingContainerId := none, currencyCode := none
             buyNowInitializeOptions := none, shouldProcessPayment := false } }

def c8AfterInit : StrategyState :=
  { initialized := true, buyNowFlow := false, teardowns := 0, loads := 1 }

/-!
Theorems. Each claim of the specification is settled below.
-/

/-- Claim C1, counterexample: a present checkout whose outstanding balance is
0 yields the empty `totalPrice`, not `"0.00"` — the source guards the
rounding behind the JS truthiness of `checkout?.outstandingBalance`, which is
false for a zero balance. -/
theorem totalPrice_zero_balance_counterexample :
    (gpInit (some c1Zero) pmExample true).transactionInfo.totalPrice = "" ∧
    ("" : String) ≠ "0.00" := by
  constructor
  · show gpTotalPrice (some c1Zero) = ""
    simp [gpTotalPrice, c1Zero]
  · decide

/-- Claim C1 (amended): `transactionInfo.totalPrice` is the empty string when
no checkout is present or when the outstanding balance of the present
checkout is 0; for a present checkout with a nonnegative nonzero balance it
is the balance rounded to two decimals half-away-from-zero and rendered with
two decimals (for nonnegative amounts the half-up rounding of the source
coincides with half-away-from-zero). -/
theorem totalPrice_spec :
    (∀ (pm : PaymentMethod) (has : Bool),
      (gpInit none pm has).transactionInfo.totalPrice = "") ∧
    (∀ (c : Checkout) (pm : PaymentMethod) (has : Bool),
      0 ≤ c.outstandingBalance →
      (gpInit (some c) pm has).transactionInfo.totalPrice =
        (if c.outstandingBalance = 0 then ""
         else renderCents (roundHalfAwayCents c.outstandingBalance))) := by
  constructor
  · intro pm has; rfl
  · intro c pm has h
    show gpTotalPrice (some c) = _
    rw [show gpTotalPrice (some c) =
        (if c.outstandingBalance = 0 then ""
         else renderCents (lodashRoundCents c.outstandingBalance)) from rfl]
    by_cases h0 : c.outstandingBalance = 0
    · simp [h0]
    · rw [if_neg h0, if_neg h0]
      unfold lodashRoundCents roundHalfAwayCents
      rw [if_neg (not_lt.mpr h), mul_comm]

/-- Claim C1, witness: the checkout with outstanding balance 21.995 satisfies
the hypothesis and its `totalPrice` is the rendered half-away-from-zero
rounding, concretely `"22.00"`. -/
theorem totalPrice_spec_witness :
    0 ≤ c1Example.outstandingBalance ∧
    (gpInit (some c1Example) pmExample true).transactionInfo.totalPrice =
      (if c1Example.outstandingBalance = 0 then ""
       else renderCents (roundHalfAwayCents c1Example.outstandingBalance)) :=
  ⟨by norm_num [c1Example],
    totalPrice_spec.2 c1Example pmExample true (by norm_num [c1Example])⟩

/-- Evaluation backing the witness: the rendered rounding of 21.995 is
exactly the string `"22.00"`. -/
theorem totalPrice_example_value :
    (if c1Example.outstandingBalance = 0 then ""
     else renderCents (roundHalfAwayCents c1Example.outstandingBalance)) = "22.00" := by
  rw [if_neg (by norm_num [c1Example])]
  have h : roundHalfAwayCents c1Example.outstandingBalance = 2200 := by
    norm_num [roundHalfAwayCents, c1Example]
  rw [h]
  rfl

/-- Claim C4, counterexample: the token parsing to the object with an empty
`card` object — its structure is missing all of the expected `id`, `type`,
`card.brand`, `card.last4` fields — does not fail with
`InvalidArgumentError`; `parseResponse` succeeds with every field
`undefined`. -/
theorem parseResponse_missing_structure_ok :
    parseResponse (some (.jobj [("card", .jobj [])])) =
      .ok { nonce := none, type := none, details := { cardType := none, lastFour := none } } :=
  rfl

/-- Claim C4 (amended): `parseResponse` is a pure synchronous mapping, and it
fails with `InvalidArgumentError` exactly when the token is malformed JSON,
the parsed payload is `null`, or its `card` property is absent or `null`;
a token whose `card` is any other value succeeds even when the leaf fields
are missing (they come out `undefined`). -/
theorem parseResponse_failure_characterization :
    ∀ token : Option JVal,
      parseResponse token = .error .invalidArgument ↔ parseFails token = true := by
  intro token
  match token with
  | none => simp [parseResponse, parseFails]
  | some .jnull =>
    simp [parseResponse, parseFails, jsProp, Except.instMonad, Except.bind, Except.map,
      Except.pure]
  | some (.jbool b) =>
    simp [parseResponse, parseFails, jsProp, jsPropPure, Except.instMonad, Except.bind,
      Except.map, Except.pure]
  | some (.jnum q) =>
    simp [parseResponse, parseFails, jsProp, jsPropPure, Except.instMonad, Except.bind,
      Except.map, Except.pure]
  | some (.jstr s) =>
    simp [parseResponse, parseFails, jsProp, jsPropPure, Except.instMonad, Except.bind,
      Except.map, Except.pure]
  | some (.jarr l) =>
    simp [parseResponse, parseFails, jsProp, jsPropPure, Except.instMonad, Except.bind,
      Except.map, Except.pure]
  | some (.jobj fields) =>
    simp only [parseResponse, parseFails, jsPropPure]
    cases hc : jobjGet fields "card" with
    | none =>
      simp [jsProp, jsPropPure, hc, Except.instMonad, Except.bind, Except.map, Except.pure]
    | some cv =>
      cases cv <;>
        simp [jsProp, jsPropPure, hc, Except.instMonad, Except.bind, Except.map, Except.pure]

/-- Claim C9: the payment-data request holds a single CARD allowed payment
method whose `allowedCardNetworks` is the `supportedCards` list of the method
with `MC` replaced by `MASTERCARD`, preserving order and length. -/
theorem allowedCardNetworks_map_mc :
    ∀ (checkout : Option Checkout) (pm : PaymentMethod) (has : Bool),
      ∃ apm, (gpInit checkout pm has).allowedPaymentMethods = [apm] ∧
        apm.type = "CARD" ∧
        apm.parameters.allowedCardNetworks.length = pm.supportedCards.length ∧
        ∀ i, apm.parameters.allowedCardNetworks.get? i =
          (pm.supportedCards.get? i).map fun card =>
            if card = "MC" then "MASTERCARD" else card := by
  intro checkout pm has
  refine ⟨_, rfl, rfl, List.length_map _ _, ?_⟩
  intro i
  simp

/-- Claim C10, counterexample: with bopis enabled, `requiredAddress = "none"`
and a nonempty consignment list whose single consignment has a selected
pickup option, the request has `shippingAddressRequired = false` even though
`hasShippingAddress` is false — the claim predicts the negation of
`hasShippingAddress`, that is `true`, outside the empty-consignment case. -/
theorem shippingAddressRequired_pickup_counterexample :
    pickupCheckout.consignments ≠ [] ∧
    (gpInit (some pickupCheckout) pmBopis false).shippingAddressRequired = false ∧
    (!false) = true := by
  refine ⟨by decide, ?_, rfl⟩
  rfl

lemma shippingAddressRequired_bopis_none (checkout : Option Checkout)
    (pm : PaymentMethod) (has : Bool) (hb : pm.initializationData.bopis = none) :
    (gpInit checkout pm has).shippingAddressRequired = !has := by
  have h0 : (gpInit checkout pm has).shippingAddressRequired =
      (match pm.initializationData.bopis with
       | some b =>
         if b.enabled
              && (consignmentsOf checkout).all (fun con => con.selectedPickupOption.isSome)
              && b.requiredAddress == "none" then false
         else !has
       | none => !has) := rfl
  rw [h0, hb]

lemma shippingAddressRequired_bopis_some (checkout : Option Checkout)
    (pm : PaymentMethod) (has : Bool) (b : Bopis)
    (hb : pm.initializationData.bopis = some b) :
    (gpInit checkout pm has).shippingAddressRequired =
      (if b.enabled
            && (consignmentsOf checkout).all (fun con => con.selectedPickupOption.isSome)
            && b.requiredAddress == "none" then false
       else !has) := by
  have h0 : (gpInit checkout pm has).shippingAddressRequired =
      (match pm.initializationData.bopis with
       | some b =>
         if b.enabled
              && (consignmentsOf checkout).all (fun con => con.selectedPickupOption.isSome)
              && b.requiredAddress == "none" then false
         else !has
       | none => !has) := rfl
  rw [h0, hb]

/-- Claim C10 (amended): `shippingAddressRequired` is false whenever bopis is
configured with `enabled = true` and `requiredAddress = "none"` and every
consignment of the checkout has a selected pickup option — vacuously so for
an empty consignment list or an absent checkout, but equally for a nonempty
all-pickup list; in every other case it is the negation of
`hasShippingAddress`. -/
theorem shippingAddressRequired_spec :
    ∀ (checkout : Option Checkout) (pm : PaymentMethod) (has : Bool),
      (bopisNoShippingConfigured pm → allConsignmentsPickup checkout →
        (gpInit checkout pm has).shippingAddressRequired = false) ∧
      (¬(bopisNoShippingConfigured pm ∧ allConsignmentsPickup checkout) →
        (gpInit checkout pm has).shippingAddressRequired = !has) := by
  intro checkout pm has
  cases hb : pm.initializationData.bopis with
  | none =>
    constructor
    · rintro ⟨b, hb2, _, _⟩ _
      rw [hb] at hb2
      exact absurd hb2 (by simp)
    · intro _
      exact shippingAddressRequired_bopis_none checkout pm has hb
  | some b =>
    rw [shippingAddressRequired_bopis_some checkout pm has b hb]
    by_cases hcond : (b.enabled
        && (consignmentsOf checkout).all (fun con => con.selectedPickupOption.isSome)
        && b.requiredAddress == "none") = true
    · constructor
      · intro _ _
        rw [if_pos hcond]
      · intro hno
        exfalso
        apply hno
        simp only [Bool.and_eq_true, beq_iff_eq] at hcond
        obtain ⟨⟨hen, hall⟩, hreqaddr⟩ := hcond
        refine ⟨⟨b, hb, hen, hreqaddr⟩, ?_⟩
        intro con hcon
        exact List.all_eq_true.mp hall con hcon
    · constructor
      · intro hbopis hpickup
        exfalso
        apply hcond
        obtain ⟨b2, hb2, hen, hreqaddr⟩ := hbopis
        rw [hb] at hb2
        injection hb2 with hb2
        subst hb2
        simp only [Bool.and_eq_true, beq_iff_eq]
        refine ⟨⟨hen, ?_⟩, hreqaddr⟩
        exact List.all_eq_true.mpr fun con hcon => hpickup con hcon
      · intro _
        rw [if_neg hcond]

/-- Claim C10, witness: with bopis configured enabled and `"none"` and an
absent checkout (hence an empty consignment list) the hypotheses hold and
`shippingAddressRequired` is false regardless of `hasShippingAddress`. -/
theorem shippingAddressRequired_spec_witness :
    bopisNoShippingConfigured pmBopis ∧
    (gpInit none pmBopis true).shippingAddressRequired = false :=
  ⟨⟨{ enabled := true, requiredAddress := "none" }, rfl, rfl, rfl⟩,
    (shippingAddressRequired_spec none pmBopis true).1
      ⟨{ enabled := true, requiredAddress := "none" }, rfl, rfl, rfl⟩
      (by intro con hcon; simp [consignmentsOf] at hcon)⟩

/-- Claim C3: `initialize()` of the button strategy rejects with
`InvalidArgumentError` whenever `methodId`, `containerId` or the
provider-options object is missing (spec-modelled: the strategy
implementation is absent from src). -/
theorem strategyInit_missing_options_invalidArgument :
    ∀ (opts : CheckoutButtonInitializeOptions) (clientToken : Option String)
      (s : StrategyState),
      opts.methodId = none ∨ opts.containerId = none ∨ opts.braintreepaypal = none →
      strategyInit opts clientToken s = .error .invalidArgument := by
  intro opts clientToken s h
  obtain ⟨m, c, b⟩ := opts
  cases m <;> cases c <;> cases b <;> simp_all [strategyInit]

/-- Claim C3, witness: options missing `methodId` are rejected with
`InvalidArgumentError`. -/
theorem strategyInit_missing_options_witness :
    strategyInit c3Opts (some "myToken") StrategyState.fresh = .error .invalidArgument :=
  strategyInit_missing_options_invalidArgument c3Opts (some "myToken")
    StrategyState.fresh (Or.inl rfl)

/-- Claim C2: in the buy-now flow, when `getBuyNowCartRequestBody()` returns
no value, the order-creation handler reports `MissingDataError(MissingCart)`
via `onPaymentError` and never invokes the create-order call of the provider
(spec-modelled: the strategy implementation is absent from src). -/
theorem buyNow_missing_body_reports_missingCart :
    ∀ (bp : BraintreePaypalButtonInitializeOptions) (bn : BuyNowInitializeOptions)
      (cartCreate providerResult : Except StrategyError String),
      bp.buyNowInitializeOptions = some bn →
      bn.getBuyNowCartRequestBody = none →
      (createOrderHandler bp cartCreate providerResult).paymentErrors =
          [.missingData .missingCart] ∧
        (createOrderHandler bp cartCreate providerResult).providerCalls = 0 := by
  intro bp bn cartCreate providerResult h1 h2
  simp [createOrderHandler, h1, h2]

/-- Claim C2, witness: a configuration whose buy-now builder returns nothing
reports `MissingCart` and performs no provider call. -/
theorem buyNow_missing_body_witness :
    (createOrderHandler c2Bp (.ok "cart") (.ok "order")).paymentErrors =
        [.missingData .missingCart] ∧
      (createOrderHandler c2Bp (.ok "cart") (.ok "order")).providerCalls = 0 :=
  buyNow_missing_body_reports_missingCart c2Bp { getBuyNowCartRequestBody := none }
    (.ok "cart") (.ok "order") rfl rfl

/-- Claim C5: each invocation of the order-creation handler triggers exactly
one checkout-state reload in the existing-cart flow — n invocations reload n
times, so two reload twice — and none in the buy-now flow (spec-modelled:
the strategy implementation is absent from src). -/
theorem createOrder_reload_counts :
    ∀ (bp : BraintreePaypalButtonInitializeOptions) (s : StrategyState) (n : Nat),
      (bp.buyNowInitializeOptions = none →
        (runCreateOrders bp n s).loads = s.loads + n) ∧
      (∀ bn, bp.buyNowInitializeOptions = some bn →
        (runCreateOrders bp n s).loads = s.loads) := by
  intro bp s n
  induction n generalizing s with
  | zero => exact ⟨fun _ => rfl, fun _ _ => rfl⟩
  | succ n ih =>
    constructor
    · intro h
      have hstep : (createOrderHandler bp (.ok "cart") (.ok "order")).loads = 1 := by
        simp [createOrderHandler, h]
      simp only [runCreateOrders, hstep]
      rw [(ih _).1 h]
      show s.loads + 1 + n = s.loads + (n + 1)
      omega
    · intro bn h
      have hstep : (createOrderHandler bp (.ok "cart") (.ok "order")).loads = 0 := by
        cases hbn : bn.getBuyNowCartRequestBody <;> simp [createOrderHandler, h, hbn]
      simp only [runCreateOrders, hstep]
      rw [(ih _).2 bn h]
      show s.loads + 0 = s.loads
      omega

/-- Claim C5, witness: in the existing-cart flow two handler invocations
reload exactly twice. -/
theorem createOrder_reload_counts_witness :
    (runCreateOrders c5Bp 2 StrategyState.fresh).loads = StrategyState.fresh.loads + 2 :=
  (createOrder_reload_counts c5Bp StrategyState.fresh 2).1 rfl

/-- Claim C6: when tokenization fails, the approval handler reports the error
via `onAuthorizeError` and the finalization poster is never invoked for that
approval cycle (spec-modelled: the strategy implementation is absent from
src). -/
theorem tokenization_failure_no_post :
    ∀ (e : StrategyError) (methodId : String) (shouldProcessPayment : Bool)
      (cartId : String) (billing : Address) (shipping : Option Address),
      (onApproveHandler (.error e) methodId shouldProcessPayment cartId billing
          shipping).authorizeErrors = [e] ∧
        (onApproveHandler (.error e) methodId shouldProcessPayment cartId billing
          shipping).posts = [] := by
  intro e methodId shouldProcessPayment cartId billing shipping
  exact ⟨rfl, rfl⟩

/-- Claim C7: a successful approval cycle posts exactly one finalization form
whose `action` is `"process_payment"` when immediate processing is requested
and `"set_external_checkout"` otherwise, alongside `payment_type`, the
provider identifier, `device_data`, `nonce`, and the JSON-serialized
`billing_address` and `shipping_address` fields (the latter present exactly
when a shipping address is known; spec-modelled: the strategy implementation
is absent from src). -/
theorem finalization_payload_fields :
    ∀ (approval : ApprovalResult) (methodId : String) (shouldProcessPayment : Bool)
      (cartId : String) (billing : Address) (shipping : Option Address) (sa : Address),
      (onApproveHandler (.ok approval) methodId shouldProcessPayment cartId billing
          shipping).posts =
        [buildFinalizationPayload methodId shouldProcessPayment cartId approval billing
          shipping] ∧
      (buildFinalizationPayload methodId shouldProcessPayment cartId approval billing
          shipping).lookup "action" =
        some (if shouldProcessPayment then "process_payment" else "set_external_checkout") ∧
      (buildFinalizationPayload methodId shouldProcessPayment cartId approval billing
          shipping).lookup "payment_type" = some "paypal" ∧
      (buildFinalizationPayload methodId shouldProcessPayment cartId approval billing
          shipping).lookup "provider" = some methodId ∧
      (buildFinalizationPayload methodId shouldProcessPayment cartId approval billing
          shipping).lookup "device_data" = some approval.deviceData ∧
      (buildFinalizationPayload methodId shouldProcessPayment cartId approval billing
          shipping).lookup "nonce" = some approval.nonce ∧
      (buildFinalizationPayload methodId shouldProcessPayment cartId approval billing
          shipping).lookup "billing_address" = some (serializeAddress billing) ∧
      (buildFinalizationPayload methodId shouldProcessPayment cartId approval billing
          (some sa)).lookup "shipping_address" = some (serializeAddress sa) ∧
      (buildFinalizationPayload methodId shouldProcessPayment cartId approval billing
          none).lookup "shipping_address" = none := by
  intro approval methodId shouldProcessPayment cartId billing shipping sa
  refine ⟨rfl, ?_, ?_, ?_, ?_, ?_, ?_, ?_, ?_⟩ <;>
    cases shipping <;> simp [buildFinalizationPayload, List.lookup]

/-- Claim C8: deinitialize is idempotent — before a successful initialize it
is a no-op, a second call after a first is a no-op, and after a successful
initialize a deinitialize tears the SDK session down exactly once
(spec-modelled: the strategy implementation is absent from src). -/
theorem strategyDeinit_idempotent_teardown_once :
    (∀ s : StrategyState, s.initialized = false → strategyDeinit s = s) ∧
    (∀ s : StrategyState, strategyDeinit (strategyDeinit s) = strategyDeinit s) ∧
    (∀ (opts : CheckoutButtonInitializeOptions) (clientToken : Option String)
        (s s' : StrategyState),
      strategyInit opts clientToken s = .ok s' →
      (strategyDeinit s').teardowns = s.teardowns + 1 ∧
        (strategyDeinit s').initialized = false) := by
  refine ⟨?_, ?_, ?_⟩
  · intro s h
    simp [strategyDeinit, h]
  · intro s
    by_cases h : s.initialized <;> simp [strategyDeinit, h]
  · intro opts clientToken s s' h
    obtain ⟨m, c, b⟩ := opts
    cases m <;> cases c <;> cases b <;> cases clientToken <;>
      simp_all [strategyInit, strategyDeinit]
    subst h
    simp [strategyDeinit]

/-- Claim C8, witness: initializing from the fresh state and deinitializing
performs exactly one teardown and leaves the session closed. -/
theorem strategyDeinit_witness :
    (strategyDeinit c8AfterInit).teardowns = StrategyState.fresh.teardowns + 1 ∧
      (strategyDeinit c8AfterInit).initialized = false :=
  strategyDeinit_idempotent_teardown_once.2.2 c8Opts (some "myToken")
    StrategyState.fresh c8AfterInit rfl

end CheckoutSdk
